import Mathlib

/-!
Verification of the AutoHelm navigation / signal-replication firmware.

The development shallowly embeds the C++ sources:
* `src/Helm/NavigationUtils.cpp` — angle arithmetic (`calculateRelativeAngle`,
  `normalizeAngle`), embedded over `ℚ` (exact arithmetic); a separate
  binary32 rounding model is used where float rounding is the point at issue;
* `src/Helm/NavigationManager.cpp` — the navigation state machine, with the
  trigonometric geodesy routines (`calculateDistance`, `calculateBearing`)
  abstracted as function parameters, since the state machine's control flow
  never inspects their internals;
* `src/Helm/DeviceRFController.cpp` — the 90-bit PWM signal encoder;
* `src/Helm/BluetoothController.cpp` — JSON validation and the telemetry
  fragmentation protocol, over byte lists (C `char*` buffers are byte strings).

Machine integers are modelled as `ℕ`/`ℤ` with explicit truncations
(`% 256`, `% 65536`) exactly where the C code narrows a value.
-/

namespace AutoHelm

/-! ## Configuration constants (src/Helm/DataModels.cpp) -/

/-- `SystemConfig::HEADING_TOLERANCE = 15.0` -/
def HEADING_TOLERANCE : ℚ := 15

/-- `SystemConfig::MIN_CORRECTION_INTERVAL = 2000` (milliseconds) -/
def MIN_CORRECTION_INTERVAL : ℕ := 2000

/-- `SystemConfig::MIN_DISTANCE_METERS = 5.0` -/
def MIN_DISTANCE_METERS : ℚ := 5

/-! ## NavigationUtils (src/Helm/NavigationUtils.cpp) -/

/-- `NavigationUtils::calculateRelativeAngle` (NavigationUtils.cpp:134-145):
`relativeAngle = targetBearing - currentHeading`, then a single conditional
fold: subtract 360 if above 180, add 360 if below -180. -/
def calculateRelativeAngle (currentHeading targetBearing : ℚ) : ℚ :=
  let relativeAngle := targetBearing - currentHeading
  if 180 < relativeAngle then relativeAngle - 360
  else if relativeAngle < -180 then relativeAngle + 360
  else relativeAngle

/-- First loop of `NavigationUtils::normalizeAngle` (NavigationUtils.cpp:125-127),
`while (angle < 0.0f) angle += 360.0f`, under exact arithmetic. -/
def normalizeAddLoop (angle : ℚ) : ℚ :=
  if h : angle < 0 then normalizeAddLoop (angle + 360) else angle
termination_by (Int.ceil (-angle / 360)).toNat
decreasing_by
  have h1 : Int.ceil (-(angle + 360) / 360) = Int.ceil (-angle / 360) - 1 := by
    rw [show -(angle + 360) / 360 = -angle / 360 - 1 by ring]
    exact Int.ceil_sub_one _
  have h2 : 0 < Int.ceil (-angle / 360) :=
    Int.ceil_pos.mpr (div_pos (neg_pos.mpr h) (by norm_num))
  simp only [h1]
  omega

/-- Second loop of `NavigationUtils::normalizeAngle` (NavigationUtils.cpp:128-130),
`while (angle >= 360.0f) angle -= 360.0f`, under exact arithmetic. -/
def normalizeSubLoop (angle : ℚ) : ℚ :=
  if h : 360 ≤ angle then normalizeSubLoop (angle - 360) else angle
termination_by (Int.floor (angle / 360)).toNat
decreasing_by
  have h1 : Int.floor ((angle - 360) / 360) = Int.floor (angle / 360) - 1 := by
    rw [show (angle - 360) / 360 = angle / 360 - 1 by ring]
    exact Int.floor_sub_one _
  have h2 : 1 ≤ Int.floor (angle / 360) := by
    rw [Int.le_floor]
    push_cast
    linarith
  simp only [h1]
  omega

/-- `NavigationUtils::normalizeAngle` (NavigationUtils.cpp:123-132) under exact
arithmetic: both while-loops run to completion. -/
def normalizeAngle (angle : ℚ) : ℚ :=
  normalizeSubLoop (normalizeAddLoop angle)

/-! ## A binary32 model for `normalizeAngle`'s float loops

The C `normalizeAngle` operates on `float` (IEEE-754 binary32).  To settle the
termination claim for large float inputs we model one float value as the exact
rational it denotes and model each `angle -= 360.0f` / `angle += 360.0f` step
as exact rational arithmetic followed by rounding to the nearest binary32
value (ties to even).  The model covers the normal range of binary32
(magnitudes between 2^-126 and 2^128), which contains every value the loops
visit in the development; overflow, subnormals and NaN are outside its scope. -/

/-- Largest `e : ℤ` with `2 ^ e ≤ q`, for `q` in the binary32 normal range:
counts the exponents `e ∈ [-150, 149)` with `2 ^ e ≤ q`, phrasing each test
`2 ^ (i - 150) ≤ num / den` as a cross-multiplied integer comparison. -/
def floorLog2 (q : ℚ) : ℤ :=
  ((List.range 300).countP (fun i =>
      if 150 ≤ i then 2 ^ (i - 150) * q.den ≤ q.num.toNat
      else q.den ≤ q.num.toNat * 2 ^ (150 - i))) - 151

/-- Round the fraction `a / b` (with `b > 0`) to the nearest integer, ties to
even — the IEEE-754 default rounding of the significand.  `f` is the floor of
the quotient and `r2 / 2` its fractional remainder. -/
def roundNearestEvenInt (a : ℤ) (b : ℕ) : ℤ :=
  let f := Int.fdiv a b
  let r2 := 2 * (a - f * b)
  if r2 < b then f
  else if (b : ℤ) < r2 then f + 1
  else if f % 2 = 0 then f else f + 1

/-- Round an exact rational to the nearest binary32 value (24-bit significand,
round to nearest, ties to even), for values in the binary32 normal range:
with `e := floorLog2 |q| - 23`, the result is `round(q / 2 ^ e) * 2 ^ e`,
carried out on the integer numerator and denominator. -/
def roundToFloat32 (q : ℚ) : ℚ :=
  if q = 0 then 0
  else
    let e : ℤ := floorLog2 |q| - 23
    if 0 ≤ e then
      mkRat (roundNearestEvenInt q.num (q.den * 2 ^ e.toNat) * 2 ^ e.toNat) 1
    else
      mkRat (roundNearestEvenInt (q.num * 2 ^ (-e).toNat) q.den) (2 ^ (-e).toNat)

/-- Fuel-indexed run of the float first loop `while (angle < 0.0f) angle += 360.0f`;
`none` means the loop was still running when the fuel ran out. -/
def addLoopF32 : ℕ → ℚ → Option ℚ
  | 0, _ => none
  | fuel + 1, angle =>
    if angle < 0 then addLoopF32 fuel (roundToFloat32 (angle + 360)) else some angle

/-- Fuel-indexed run of the float second loop `while (angle >= 360.0f) angle -= 360.0f`. -/
def subLoopF32 : ℕ → ℚ → Option ℚ
  | 0, _ => none
  | fuel + 1, angle =>
    if 360 ≤ angle then subLoopF32 fuel (roundToFloat32 (angle - 360)) else some angle

/-- `NavigationUtils::normalizeAngle` under binary32 float semantics, with fuel. -/
def normalizeAngleF32 (fuel : ℕ) (angle : ℚ) : Option ℚ :=
  (addLoopF32 fuel angle).bind (subLoopF32 fuel)

/-- The float `normalizeAngle` never terminates on `angle`: no amount of fuel
completes both loops. -/
def normalizeAngleF32Diverges (angle : ℚ) : Prop :=
  ∀ fuel, normalizeAngleF32 fuel angle = none

/-! ## NavigationManager (src/Helm/NavigationManager.cpp)

`GPSData` carries many fields (position, altitude, DOP values, time strings);
the model keeps exactly those the navigation state machine reads.  The
`NavigationManager` object state (`state`, `navigationEnabled`, `lastGpsFix`)
is flattened into one record; `lastUpdateTime` is write-only in the source and
omitted.  The trigonometric geodesy routines `NavigationUtils::calculateDistance`
and `NavigationUtils::calculateBearing` are abstracted as function parameters
`calcDistance` / `calcBearing`: the state machine only compares their outputs,
never inspects their internals. -/

inductive NavigationMode where
  | IDLE
  | NAVIGATING
  | ARRIVED
deriving DecidableEq, Repr

/-- The fields of `GPSData` (src/Helm/DataModels.h plus the DOP extension used
by GPSManager.cpp:86 and NavigationManager.cpp:102) that the navigation code
reads. -/
structure GPSData where
  hasFix : Bool
  satellites : ℤ
  hdop : ℚ
  latitude : ℚ
  longitude : ℚ
deriving DecidableEq, Repr

/-- `NavigationState` (src/Helm/NavigationManager.h:12-19) plus the private
`NavigationManager` members `navigationEnabled` and `lastGpsFix`. -/
structure NavState where
  mode : NavigationMode
  targetLatitude : ℚ
  targetLongitude : ℚ
  distanceToTarget : ℚ
  bearingToTarget : ℚ
  relativeAngle : ℚ
  navigationEnabled : Bool
  lastGpsFix : Bool
deriving DecidableEq, Repr

/-- The constructor `NavigationManager::NavigationManager` (NavigationManager.cpp:6-13). -/
def initialState : NavState :=
  { mode := NavigationMode.IDLE
    targetLatitude := 0
    targetLongitude := 0
    distanceToTarget := 0
    bearingToTarget := 0
    relativeAngle := 0
    navigationEnabled := false
    lastGpsFix := false }

/-- `NavigationManager::isGpsAccuracyValid` (NavigationManager.cpp:98-103):
`hasFix && satellites >= 4 && (hdop < 5.0 || hdop == 99.9)`. -/
def isGpsAccuracyValid (g : GPSData) : Bool :=
  g.hasFix && decide (4 ≤ g.satellites) &&
    (decide (g.hdop < 5) || decide (g.hdop = 99.9))

/-- The fix-validity expression of `NavigationManager::update`
(NavigationManager.cpp:32): `gpsData.hasFix && isGpsAccuracyValid(gpsData)`. -/
def validGpsFix (g : GPSData) : Bool :=
  g.hasFix && isGpsAccuracyValid g

/-- `NavigationManager::hasValidTarget` (NavigationManager.cpp:123-125). -/
def hasValidTarget (s : NavState) : Bool :=
  decide (s.targetLatitude ≠ 0) || decide (s.targetLongitude ≠ 0)

/-- `NavigationManager::setNavigationEnabled` (NavigationManager.cpp:75-96). -/
def setNavigationEnabled (s : NavState) (enabled : Bool) : NavState :=
  let s1 := { s with navigationEnabled := enabled }
  if !enabled then { s1 with mode := NavigationMode.IDLE }
  else if hasValidTarget s1 then { s1 with mode := NavigationMode.NAVIGATING }
  else s1

/-- `NavigationManager::setTarget` (NavigationManager.cpp:15-28). -/
def setTarget (s : NavState) (latitude longitude : ℚ) : NavState :=
  let s1 := { s with targetLatitude := latitude, targetLongitude := longitude }
  if s1.navigationEnabled then { s1 with mode := NavigationMode.NAVIGATING }
  else s1

/-- `NavigationManager::clearTarget` (NavigationManager.cpp:127-136). -/
def clearTarget (s : NavState) : NavState :=
  { mode := NavigationMode.IDLE
    targetLatitude := 0
    targetLongitude := 0
    distanceToTarget := 0
    bearingToTarget := 0
    relativeAngle := 0
    navigationEnabled := false
    lastGpsFix := s.lastGpsFix }

/-- `NavigationManager::update` (NavigationManager.cpp:30-73).  The
auto-disable branch returns before `lastGpsFix` is refreshed, exactly as the
early `return` on line 38 does. -/
def update (calcDistance calcBearing : ℚ → ℚ → ℚ → ℚ → ℚ)
    (s : NavState) (g : GPSData) (heading : ℚ) : NavState :=
  let valid := validGpsFix g
  if s.lastGpsFix && !valid && s.navigationEnabled then
    setNavigationEnabled s false
  else
    let s1 := { s with lastGpsFix := valid }
    if !s1.navigationEnabled || decide (s1.mode = NavigationMode.IDLE) || !valid then s1
    else
      let d := calcDistance g.latitude g.longitude s1.targetLatitude s1.targetLongitude
      let b := calcBearing g.latitude g.longitude s1.targetLatitude s1.targetLongitude
      let r := calculateRelativeAngle heading b
      let s2 := { s1 with distanceToTarget := d, bearingToTarget := b, relativeAngle := r }
      if d ≤ MIN_DISTANCE_METERS then { s2 with mode := NavigationMode.ARRIVED }
      else { s2 with mode := NavigationMode.NAVIGATING }

/-- `NavigationManager::isNavigationEnabled` (NavigationManager.cpp:119-121). -/
def isNavigationEnabled (s : NavState) : Bool :=
  s.navigationEnabled

/-- `NavigationManager::canNavigate` (NavigationManager.cpp:105-109). -/
def canNavigate (s : NavState) (g : GPSData) : Bool :=
  hasValidTarget s && isGpsAccuracyValid g && s.navigationEnabled

/-- `NavigationManager::shouldCorrectHeading` (NavigationManager.cpp:155-166). -/
def shouldCorrectHeading (s : NavState) (g : GPSData) : Bool :=
  canNavigate s g &&
    decide (HEADING_TOLERANCE < |s.relativeAngle|) &&
    decide (MIN_DISTANCE_METERS < s.distanceToTarget)

/-! ## The control loop (spec-modelled)

The Arduino sketch that drives `NavigationManager` each tick is not among the
sources; only its callee `shouldCorrectHeading` and the constant
`MIN_CORRECTION_INTERVAL` (defined in DataModels.cpp and referenced nowhere
else in the sources) are. -/

/-- The two steering commands of the Signal Replication Engine. -/
inductive SteerCommand where
  | STEER_LEFT
  | STEER_RIGHT
deriving DecidableEq, Repr

/-- The navigation state together with the loop's correction timestamp. -/
structure LoopState where
  nav : NavState
  lastCorrectionTime : ℕ
deriving DecidableEq, Repr

/-- Modelled from the spec: the main control loop tick (the Arduino sketch is
missing from the sources).  Per §4.2 step 5, it calls
`NavigationManager::update`, then fires a correction only when
`shouldCorrectHeading` holds and at least `MIN_CORRECTION_INTERVAL`
milliseconds have elapsed since the last correction; on fire it transmits
`STEER_RIGHT` when the relative angle is positive, else `STEER_LEFT`, and
updates the correction timestamp unconditionally. -/
def loopTick (calcDistance calcBearing : ℚ → ℚ → ℚ → ℚ → ℚ)
    (ls : LoopState) (g : GPSData) (heading : ℚ) (now : ℕ) :
    LoopState × Option SteerCommand :=
  let nav := update calcDistance calcBearing ls.nav g heading
  if shouldCorrectHeading nav g && decide (MIN_CORRECTION_INTERVAL ≤ now - ls.lastCorrectionTime) then
    ({ nav := nav, lastCorrectionTime := now },
     some (if 0 < nav.relativeAngle then SteerCommand.STEER_RIGHT else SteerCommand.STEER_LEFT))
  else
    ({ nav := nav, lastCorrectionTime := ls.lastCorrectionTime }, none)

/-- Navigation states reachable through the `NavigationManager` interface. -/
inductive Reachable : NavState → Prop where
  | init : Reachable initialState
  | setTarget {s} (lat lon : ℚ) : Reachable s → Reachable (setTarget s lat lon)
  | setEnabled {s} (e : Bool) : Reachable s → Reachable (setNavigationEnabled s e)
  | clear {s} : Reachable s → Reachable (clearTarget s)
  | update {s} (cd cb : ℚ → ℚ → ℚ → ℚ → ℚ) (g : GPSData) (heading : ℚ) :
      Reachable s → Reachable (update cd cb s g heading)

/-- The navigation invariant maintained by every interface operation: an
`ARRIVED` state's recorded distance is within the arrival threshold, and when
navigation is enabled with a valid target the mode is not `IDLE`. -/
def NavInvariant (s : NavState) : Prop :=
  (s.mode = NavigationMode.ARRIVED → s.distanceToTarget ≤ MIN_DISTANCE_METERS) ∧
  (s.navigationEnabled = true → hasValidTarget s = true → s.mode ≠ NavigationMode.IDLE)

/-- The spec's fix-validity rule as quoted by the claims (§4.2 step 1): the
fix is valid when `hasFix`, `satellites ≥ 4`, and `0 < hdop < 5.0` hold, with
`hdop = 99.9` treated as acceptable.  Stated from the spec's words, for
comparison with the code's `isGpsAccuracyValid`. -/
def specGpsFixValid (g : GPSData) : Bool :=
  g.hasFix && decide (4 ≤ g.satellites) &&
    ((decide (0 < g.hdop) && decide (g.hdop < 5)) || decide (g.hdop = 99.9))

/-! ## Concrete scenario inputs -/

/-- A constant stand-in for a geodesy routine, reporting the same value for
every pair of points. -/
def cdConst (d : ℚ) : ℚ → ℚ → ℚ → ℚ → ℚ := fun _ _ _ _ => d

/-- A healthy fix: 5 satellites, HDOP 1. -/
def fixGood : GPSData :=
  { hasFix := true, satellites := 5, hdop := 1, latitude := 0, longitude := 0 }

/-- A fix with HDOP exactly 0 — the GPS collaborator's zero-initialised DOP:
invalid under the spec's `0 < hdop` reading, accepted by the code's
`hdop < 5.0` test. -/
def fixHdopZero : GPSData :=
  { hasFix := true, satellites := 5, hdop := 0, latitude := 0, longitude := 0 }

/-- Fix loss: no fix, satellites drop to 2. -/
def fixLost : GPSData :=
  { hasFix := false, satellites := 2, hdop := 99.9, latitude := 0, longitude := 0 }

/-- Target (1, 1) set, then navigation enabled: mode `NAVIGATING`. -/
def demoEnabledState : NavState :=
  setNavigationEnabled (setTarget initialState 1 1) true

/-- One update of `demoEnabledState` with a valid fix at distance 100 m,
bearing 30°, heading 0°. -/
def demoTrackingState : NavState :=
  update (cdConst 100) (cdConst 30) demoEnabledState fixGood 0

/-- The explicit record value of `demoTrackingState`. -/
def trackingStateLit : NavState :=
  { mode := NavigationMode.NAVIGATING
    targetLatitude := 1
    targetLongitude := 1
    distanceToTarget := 100
    bearingToTarget := 30
    relativeAngle := 30
    navigationEnabled := true
    lastGpsFix := true }

/-- One update of `demoEnabledState` with a valid fix at distance 4 m:
mode `ARRIVED`. -/
def demoArrivedState : NavState :=
  update (cdConst 4) (cdConst 30) demoEnabledState fixGood 0

/-- The explicit record value of `demoArrivedState`. -/
def arrivedStateLit : NavState :=
  { mode := NavigationMode.ARRIVED
    targetLatitude := 1
    targetLongitude := 1
    distanceToTarget := 4
    bearingToTarget := 30
    relativeAngle := 30
    navigationEnabled := true
    lastGpsFix := true }

/-! ## DeviceRFController (src/Helm/DeviceRFController.cpp)

The transmitter is embedded as the trace of line-level segments it drives on
the data pin: each `digitalWrite(level)` + `delayMicroseconds(t)` pair becomes
one `(level, t)` entry.  The trailing `digitalWrite(RF_DATA_PIN, LOW)` without
a delay (DeviceRFController.cpp:221) holds the line for no modelled duration
and is omitted from the trace. -/

/-- `SHORT_PULSE_HIGH_US` (DeviceRFController.h:65) -/
def SHORT_PULSE_HIGH_US : ℕ := 50

/-- `SHORT_PULSE_LOW_US` (DeviceRFController.h:66) -/
def SHORT_PULSE_LOW_US : ℕ := 52

/-- `LONG_PULSE_HIGH_US` (DeviceRFController.h:67) -/
def LONG_PULSE_HIGH_US : ℕ := 102

/-- `LONG_PULSE_LOW_US` (DeviceRFController.h:68) -/
def LONG_PULSE_LOW_US : ℕ := 52

/-- `SYNC_PULSE_HIGH_US` (DeviceRFController.h:69) -/
def SYNC_PULSE_HIGH_US : ℕ := 170

/-- `SYNC_PULSE_LOW_US` (DeviceRFController.h:70) -/
def SYNC_PULSE_LOW_US : ℕ := 114

/-- `FRAME_GAP_US` (DeviceRFController.h:71) -/
def FRAME_GAP_US : ℕ := 114

/-- `RIGHT_CODE_HIGH` (DeviceRFController.h:74), the 40-bit half. -/
def RIGHT_CODE_HIGH : ℕ := 0x8000576d76

/-- `RIGHT_CODE_LOW` (DeviceRFController.h:75), the 50-bit half
(the constant carries two set bits above bit 49 that the transmit loop
never reads). -/
def RIGHT_CODE_LOW : ℕ := 0xf7e077723ba90

/-- `LEFT_CODE_HIGH` (DeviceRFController.h:76). -/
def LEFT_CODE_HIGH : ℕ := 0x8000576d76

/-- `LEFT_CODE_LOW` (DeviceRFController.h:77). -/
def LEFT_CODE_LOW : ℕ := 0xf7e077723ea84

/-- One line-level segment: the pin level and the microseconds it is held. -/
abbrev LineSeg := Bool × ℕ

/-- `DeviceRFController::sendBit` (DeviceRFController.cpp:224-238). -/
def sendBit (bitValue : Bool) : List LineSeg :=
  if bitValue then
    [(true, LONG_PULSE_HIGH_US), (false, LONG_PULSE_LOW_US)]
  else
    [(true, SHORT_PULSE_HIGH_US), (false, SHORT_PULSE_LOW_US)]

/-- `DeviceRFController::sendSyncPulse` (DeviceRFController.cpp:240-246). -/
def sendSyncPulse : List LineSeg :=
  [(true, SYNC_PULSE_HIGH_US), (false, SYNC_PULSE_LOW_US)]

/-- The bit sequence `(code >> bit) & 1` for `bit` from `width - 1` down to 0,
as walked by the loops of `transmit90BitCommand` (DeviceRFController.cpp:198-207). -/
def codeBitsMSB (code width : ℕ) : List Bool :=
  (List.range width).reverse.map (fun bit => ((code >>> bit) &&& 1) == 1)

/-- One repetition of the frame body of `DeviceRFController::transmit90BitCommand`
(DeviceRFController.cpp:193-207): sync pulse, then the 40 `codeHigh` bits
most-significant-bit first, then the 50 `codeLow` bits. -/
def transmitFrame (codeHigh codeLow : ℕ) : List LineSeg :=
  sendSyncPulse ++
    (codeBitsMSB codeHigh 40).flatMap sendBit ++
    (codeBitsMSB codeLow 50).flatMap sendBit

/-- `DeviceRFController::transmit90BitCommand` (DeviceRFController.cpp:185-222):
`repeatCount` frames, each followed by the inter-frame LOW gap. -/
def transmit90BitCommand (codeHigh codeLow : ℕ) : ℕ → List LineSeg
  | 0 => []
  | n + 1 =>
    (transmitFrame codeHigh codeLow ++ [(false, FRAME_GAP_US)]) ++
      transmit90BitCommand codeHigh codeLow n

/-- A pulse: one HIGH hold followed by one LOW hold. -/
structure Pulse where
  highUs : ℕ
  lowUs : ℕ
deriving DecidableEq, Repr

/-- Group a line-segment trace into HIGH/LOW pulses; `none` when the trace
does not alternate HIGH then LOW. -/
def toPulses : List LineSeg → Option (List Pulse)
  | [] => some []
  | (true, h) :: (false, l) :: rest => (toPulses rest).map (fun ps => Pulse.mk h l :: ps)
  | _ => none

/-- The pulse encoding a data bit: long for 1, short for 0. -/
def pulseOfBit (b : Bool) : Pulse :=
  if b then Pulse.mk LONG_PULSE_HIGH_US LONG_PULSE_LOW_US
  else Pulse.mk SHORT_PULSE_HIGH_US SHORT_PULSE_LOW_US

/-- The sync pulse. -/
def syncPulse : Pulse := Pulse.mk SYNC_PULSE_HIGH_US SYNC_PULSE_LOW_US

/-- Expected pulse train of one frame: sync, then the 90 data bits. -/
def framePulses (codeHigh codeLow : ℕ) : List Pulse :=
  syncPulse :: (codeBitsMSB codeHigh 40 ++ codeBitsMSB codeLow 50).map pulseOfBit

/-- Both holds of the pulse are among the six configured timing constants. -/
def pulseWidthsConfigured (p : Pulse) : Bool :=
  (p.highUs == SYNC_PULSE_HIGH_US || p.highUs == LONG_PULSE_HIGH_US ||
    p.highUs == SHORT_PULSE_HIGH_US) &&
  (p.lowUs == SYNC_PULSE_LOW_US || p.lowUs == LONG_PULSE_LOW_US ||
    p.lowUs == SHORT_PULSE_LOW_US)

/-- The 90 transmitted bits of the RIGHT command. -/
def rightFrameBits : List Bool :=
  codeBitsMSB RIGHT_CODE_HIGH 40 ++ codeBitsMSB RIGHT_CODE_LOW 50

/-- The 90 transmitted bits of the LEFT command. -/
def leftFrameBits : List Bool :=
  codeBitsMSB LEFT_CODE_HIGH 40 ++ codeBitsMSB LEFT_CODE_LOW 50

/-! ## BluetoothController (src/Helm/BluetoothController.cpp)

C `char*` payloads are byte lists.  The named byte constants below spell the
character codes the validator compares against. -/

/-- Character code of the opening curly brace. -/
def lbraceByte : ℕ := 123

/-- Character code of the closing curly brace. -/
def rbraceByte : ℕ := 125

/-- Character code of the double quote. -/
def quoteByte : ℕ := 34

/-- Character code of the backslash. -/
def backslashByte : ℕ := 92

/-- Bytes of the corruption marker `false.` (BluetoothController.cpp:283). -/
def falseDotBytes : List ℕ := [102, 97, 108, 115, 101, 46]

/-- Bytes of the corruption marker `true.` (BluetoothController.cpp:283). -/
def trueDotBytes : List ℕ := [116, 114, 117, 101, 46]

/-- Bytes of the corruption marker `null.` (BluetoothController.cpp:288). -/
def nullDotBytes : List ℕ := [110, 117, 108, 108, 46]

/-- `String::indexOf(needle) >= 0` — the haystack contains the needle as a
contiguous substring. -/
def containsSub (needle : List ℕ) : List ℕ → Bool
  | [] => needle.isEmpty
  | b :: rest => needle.isPrefixOf (b :: rest) || containsSub needle rest

/-- One iteration of the brace-matching loop of
`BluetoothController::isValidCompleteJSON` (BluetoothController.cpp:298-320),
on the state (braceCount, inString, escaped). -/
def braceStep (st : ℤ × Bool × Bool) (c : ℕ) : ℤ × Bool × Bool :=
  match st with
  | (braceCount, inString, escaped) =>
    if escaped then (braceCount, inString, false)
    else if c == backslashByte then (braceCount, inString, true)
    else if c == quoteByte then (braceCount, !inString, false)
    else if !inString then
      (if c == lbraceByte then braceCount + 1
       else if c == rbraceByte then braceCount - 1
       else braceCount, inString, false)
    else (braceCount, inString, false)

/-- The brace-matching validation of `isValidCompleteJSON`
(BluetoothController.cpp:293-322): final count zero and not left inside a
quoted string. -/
def braceBalanced (p : List ℕ) : Bool :=
  let st := p.foldl braceStep (0, false, false)
  st.1 == 0 && !st.2.1

/-- `BluetoothController::isValidCompleteJSON` (BluetoothController.cpp:272-323):
nonempty, starts with the opening brace, ends with the closing brace, carries
none of the three corruption markers, and passes the brace-matching scan. -/
def isValidCompleteJSON (p : List ℕ) : Bool :=
  !p.isEmpty &&
    p.head? == some lbraceByte &&
    p.getLast? == some rbraceByte &&
    !containsSub falseDotBytes p &&
    !containsSub trueDotBytes p &&
    !containsSub nullDotBytes p &&
    braceBalanced p

/-- `BluetoothController::createEssentialStatusJSON`
(BluetoothController.cpp:216-231), one byte list per concatenated source
line. -/
def essentialStatusJSON : List ℕ :=
  [123] ++
  [34, 104, 97, 115, 95, 102, 105, 120, 34, 58, 102, 97, 108, 115, 101, 44] ++
  [34, 115, 97, 116, 101, 108, 108, 105, 116, 101, 115, 34, 58, 48, 44] ++
  [34, 99, 117, 114, 114, 101, 110, 116, 76, 97, 116, 34, 58, 48, 46, 48, 44] ++
  [34, 99, 117, 114, 114, 101, 110, 116, 76, 111, 110, 34, 58, 48, 46, 48, 44] ++
  [34, 97, 108, 116, 105, 116, 117, 100, 101, 34, 58, 48, 46, 48, 44] ++
  [34, 104, 101, 97, 100, 105, 110, 103, 34, 58, 48, 46, 48, 44] ++
  [34, 100, 105, 115, 116, 97, 110, 99, 101, 34, 58, 48, 46, 48, 44] ++
  [34, 98, 101, 97, 114, 105, 110, 103, 34, 58, 48, 46, 48, 44] ++
  [34, 116, 97, 114, 103, 101, 116, 76, 97, 116, 34, 58, 110, 117, 108, 108, 44] ++
  [34, 116, 97, 114, 103, 101, 116, 76, 111, 110, 34, 58, 110, 117, 108, 108] ++
  [125]

/-- `BluetoothController::sendFragment` (BluetoothController.cpp:200-214): a
4-byte header — sequence, total fragment count, big-endian 16-bit total
length — followed by the fragment's payload bytes. -/
def sendFragment (data : List ℕ) (seqNum totalFragments totalLength : ℕ) : List ℕ :=
  [seqNum, totalFragments, (totalLength >>> 8) &&& 255, totalLength &&& 255] ++ data

/-- `BluetoothController::sendFragmentedMessage` (BluetoothController.cpp:159-198).
`totalFragments` is a `uint8_t`, hence the `% 256`; the guard compares that
truncated byte against 255.  Each fragment carries
`min(fragmentSize, remaining)` payload bytes, which is what `take` yields on
the dropped suffix; `totalLength` narrows to `uint16_t` at the `sendFragment`
call.  Returns the fragment list, or `none` when fragmentation is aborted. -/
def sendFragmentedMessage (effectiveMTU : ℕ) (payload : List ℕ) : Option (List (List ℕ)) :=
  let totalLength := payload.length
  let fragmentSize := effectiveMTU - 4
  let totalFragments := ((totalLength + fragmentSize - 1) / fragmentSize) % 256
  if 255 < totalFragments then none
  else
    some ((List.range totalFragments).map (fun seq =>
      sendFragment ((payload.drop (seq * fragmentSize)).take fragmentSize)
        seq totalFragments (totalLength % 65536)))

/-- What one `sendStatus` call writes to the status characteristic. -/
inductive Transmission where
  | whole (payload : List ℕ)
  | fragments (frags : List (List ℕ))
  | fallback (payload : List ℕ)
deriving DecidableEq, Repr

/-- `BluetoothController::sendStatus` (BluetoothController.cpp:116-157), for a
connected, initialised controller: validate, send whole when it fits the
effective MTU, otherwise fragment, falling back to the essential JSON when
validation or fragmentation fails. -/
def sendStatus (effectiveMTU : ℕ) (jsonData : List ℕ) : Transmission :=
  if !isValidCompleteJSON jsonData then Transmission.fallback essentialStatusJSON
  else if jsonData.length ≤ effectiveMTU then Transmission.whole jsonData
  else
    match sendFragmentedMessage effectiveMTU jsonData with
    | some frags => Transmission.fragments frags
    | none => Transmission.fallback essentialStatusJSON

/-- The framing contract of §4.3: `ceil(len / (MTU - 4))` fragments, each
headed by its 0-based sequence number, the fragment count and the big-endian
16-bit original length, whose payloads concatenate back to the original. -/
def fragmentsSpec (effectiveMTU : ℕ) (payload : List ℕ) (frags : List (List ℕ)) : Prop :=
  frags.length = (payload.length + (effectiveMTU - 4) - 1) / (effectiveMTU - 4) ∧
  (∀ i : Fin frags.length,
    (frags.get i).take 4 =
      [i.val, frags.length, payload.length / 256, payload.length % 256]) ∧
  (frags.map (fun f => f.drop 4)).flatten = payload

/-- A syntactically valid JSON object of 4112 bytes: an opening brace, 4110
letters `a`, a closing brace.  At effective MTU 20 (fragment size 16) it needs
`ceil(4112 / 16) = 257` fragments. -/
def oversizedJson : List ℕ :=
  123 :: (List.replicate 4110 97 ++ [125])

/-! # Theorems -/

/-! ## Navigation invariants -/

theorem navInvariant_initialState : NavInvariant initialState := by
  constructor
  · intro h
    simp [initialState] at h
  · intro h _
    simp [initialState] at h

theorem navInvariant_setTarget (s : NavState) (lat lon : ℚ) (hs : NavInvariant s) :
    NavInvariant (setTarget s lat lon) := by
  obtain ⟨h1, h2⟩ := hs
  unfold setTarget NavInvariant
  dsimp only
  split
  · refine ⟨?_, ?_⟩ <;> intro ha <;> simp_all
  · rename_i hcond
    refine ⟨fun ha => h1 ha, ?_⟩
    intro ha _
    exact absurd ha hcond

theorem navInvariant_setNavigationEnabled (s : NavState) (e : Bool) (hs : NavInvariant s) :
    NavInvariant (setNavigationEnabled s e) := by
  obtain ⟨h1, h2⟩ := hs
  unfold setNavigationEnabled NavInvariant
  dsimp only
  split
  · refine ⟨?_, ?_⟩ <;> intro ha <;> simp_all
  · split
    · refine ⟨?_, ?_⟩ <;> intro ha <;> simp_all
    · rename_i hcond
      refine ⟨fun ha => h1 ha, ?_⟩
      intro _ hb
      exact absurd hb hcond

theorem navInvariant_clearTarget (s : NavState) (_hs : NavInvariant s) :
    NavInvariant (clearTarget s) := by
  constructor
  · intro h
    simp [clearTarget] at h
  · intro h _
    simp [clearTarget] at h

theorem navInvariant_update (cd cb : ℚ → ℚ → ℚ → ℚ → ℚ) (s : NavState) (g : GPSData)
    (heading : ℚ) (hs : NavInvariant s) : NavInvariant (update cd cb s g heading) := by
  obtain ⟨h1, h2⟩ := hs
  unfold update
  dsimp only
  split
  · exact navInvariant_setNavigationEnabled s false ⟨h1, h2⟩
  · split
    · exact ⟨fun ha => h1 ha, fun ha hb => h2 ha hb⟩
    · split
      · rename_i hd
        refine ⟨fun _ => hd, ?_⟩
        intro _ _
        simp
      · refine ⟨?_, ?_⟩ <;> intro ha <;> simp_all

theorem reachable_navInvariant {s : NavState} (h : Reachable s) : NavInvariant s := by
  induction h with
  | init => exact navInvariant_initialState
  | setTarget lat lon _ ih => exact navInvariant_setTarget _ lat lon ih
  | setEnabled e _ ih => exact navInvariant_setNavigationEnabled _ e ih
  | clear _ ih => exact navInvariant_clearTarget _ ih
  | update cd cb g heading _ ih => exact navInvariant_update cd cb _ g heading ih

/-! ## Evaluation of the demonstration states -/

theorem demoTrackingState_eq : demoTrackingState = trackingStateLit := by
  simp [demoTrackingState, demoEnabledState, update, validGpsFix, isGpsAccuracyValid,
    setNavigationEnabled, hasValidTarget, setTarget, initialState, fixGood, cdConst,
    calculateRelativeAngle, MIN_DISTANCE_METERS, trackingStateLit]
  norm_num

theorem demoArrivedState_eq : demoArrivedState = arrivedStateLit := by
  simp [demoArrivedState, demoEnabledState, update, validGpsFix, isGpsAccuracyValid,
    setNavigationEnabled, hasValidTarget, setTarget, initialState, fixGood, cdConst,
    calculateRelativeAngle, MIN_DISTANCE_METERS, arrivedStateLit]
  norm_num

/-! ## C1 — auto-disable on fix loss -/

/-- C1 counterexample.  The claim reads fix validity through the spec's
`0 < hdop < 5.0` rule (99.9 acceptable).  A fix with `hdop = 0` is invalid
under that rule, yet `NavigationManager::update` — whose test is
`hdop < 5.0 || hdop == 99.9`, with no positivity bound — accepts it: starting
from a state whose previous fix was valid and with navigation enabled, the
update keeps `mode = NAVIGATING` and navigation enabled instead of the
claimed `IDLE` / disabled. -/
theorem update_hdopZero_not_autoDisabled :
    specGpsFixValid fixGood = true ∧
    specGpsFixValid fixHdopZero = false ∧
    demoTrackingState.lastGpsFix = true ∧
    demoTrackingState.navigationEnabled = true ∧
    (update (cdConst 100) (cdConst 30) demoTrackingState fixHdopZero 0).mode =
      NavigationMode.NAVIGATING ∧
    isNavigationEnabled
      (update (cdConst 100) (cdConst 30) demoTrackingState fixHdopZero 0) = true := by
  rw [demoTrackingState_eq]
  refine ⟨by decide, by norm_num [specGpsFixValid, fixHdopZero], by decide, by decide, ?_, ?_⟩ <;>
  · simp [update, validGpsFix, isGpsAccuracyValid, isNavigationEnabled, trackingStateLit,
      fixHdopZero, cdConst, calculateRelativeAngle, MIN_DISTANCE_METERS]
    norm_num

/-- C1 (amended): with fix validity read as the code computes it
(`hasFix`, `satellites ≥ 4`, and `hdop < 5.0` or `hdop = 99.9`, with no lower
bound on hdop): if the previous update recorded a valid fix, navigation is
enabled, and the new fix is invalid, the update auto-disables — the mode
becomes `IDLE`, `isNavigationEnabled` returns false, and the
distance/bearing/relative-angle fields are left untouched (no computation
happened on that tick). -/
theorem update_invalidFix_autoDisables (cd cb : ℚ → ℚ → ℚ → ℚ → ℚ)
    (s : NavState) (g : GPSData) (heading : ℚ)
    (h1 : s.lastGpsFix = true) (h2 : s.navigationEnabled = true)
    (h3 : validGpsFix g = false) :
    (update cd cb s g heading).mode = NavigationMode.IDLE ∧
    isNavigationEnabled (update cd cb s g heading) = false ∧
    (update cd cb s g heading).distanceToTarget = s.distanceToTarget ∧
    (update cd cb s g heading).bearingToTarget = s.bearingToTarget ∧
    (update cd cb s g heading).relativeAngle = s.relativeAngle := by
  simp [update, setNavigationEnabled, isNavigationEnabled, h1, h2, h3]

/-- C1 witness: a navigating state with a recorded valid fix, hit by a
fix-loss sample (no fix, 2 satellites). -/
theorem update_invalidFix_autoDisables_witness :
    trackingStateLit.lastGpsFix = true ∧
    trackingStateLit.navigationEnabled = true ∧
    validGpsFix fixLost = false ∧
    (update (cdConst 100) (cdConst 30) trackingStateLit fixLost 0).mode =
        NavigationMode.IDLE ∧
    isNavigationEnabled (update (cdConst 100) (cdConst 30) trackingStateLit fixLost 0) =
        false ∧
    (update (cdConst 100) (cdConst 30) trackingStateLit fixLost 0).distanceToTarget =
        trackingStateLit.distanceToTarget ∧
    (update (cdConst 100) (cdConst 30) trackingStateLit fixLost 0).bearingToTarget =
        trackingStateLit.bearingToTarget ∧
    (update (cdConst 100) (cdConst 30) trackingStateLit fixLost 0).relativeAngle =
        trackingStateLit.relativeAngle := by
  refine ⟨by decide, by decide, by decide, ?_⟩
  have h := update_invalidFix_autoDisables (cdConst 100) (cdConst 30) trackingStateLit
    fixLost 0 (by decide) (by decide) (by decide)
  exact ⟨h.1, h.2.1, h.2.2.1, h.2.2.2.1, h.2.2.2.2⟩

/-! ## C3 — stickiness of ARRIVED -/

/-- C3 counterexample: from the `ARRIVED` state reached at distance 4 m, an
update with a valid fix whose recomputed distance is 10 m moves the mode back
to `NAVIGATING` — no `clearTarget` or new target intervened, only the
recomputed distance changed. -/
theorem arrived_reverts_when_distance_grows :
    demoArrivedState.mode = NavigationMode.ARRIVED ∧
    validGpsFix fixGood = true ∧
    (update (cdConst 10) (cdConst 30) demoArrivedState fixGood 0).mode =
      NavigationMode.NAVIGATING := by
  rw [demoArrivedState_eq]
  refine ⟨by decide, by decide, ?_⟩
  simp [update, validGpsFix, isGpsAccuracyValid, arrivedStateLit, fixGood, cdConst,
    calculateRelativeAngle, MIN_DISTANCE_METERS]
  norm_num

/-- C3 (amended): once the mode is `ARRIVED` it stays `ARRIVED` on an update
with a valid fix whose recomputed distance is still within
`MIN_DISTANCE_METERS` (5 m) — in particular a recomputed 4.5 m; but an update
with a valid fix, navigation enabled, whose recomputed distance exceeds 5 m
moves the mode back to `NAVIGATING`. -/
theorem arrived_persistence (cd cb : ℚ → ℚ → ℚ → ℚ → ℚ)
    (s : NavState) (g : GPSData) (heading : ℚ) :
    (s.mode = NavigationMode.ARRIVED → validGpsFix g = true →
      cd g.latitude g.longitude s.targetLatitude s.targetLongitude ≤ MIN_DISTANCE_METERS →
      (update cd cb s g heading).mode = NavigationMode.ARRIVED) ∧
    (s.navigationEnabled = true → s.mode ≠ NavigationMode.IDLE → validGpsFix g = true →
      MIN_DISTANCE_METERS < cd g.latitude g.longitude s.targetLatitude s.targetLongitude →
      (update cd cb s g heading).mode = NavigationMode.NAVIGATING) := by
  refine ⟨?_, ?_⟩
  · intro hm hv hd
    cases he : s.navigationEnabled <;>
      simp [update, setNavigationEnabled, hm, hv, he, hd]
  · intro he hm hv hd
    have hmm : decide (s.mode = NavigationMode.IDLE) = false := by
      simpa using hm
    simp [update, setNavigationEnabled, he, hv, hmm, not_le.mpr hd, not_le_of_lt hd]

/-- C3 witness: the `ARRIVED` state at 4 m stays `ARRIVED` when the distance
is recomputed as 4.5 m. -/
theorem arrived_persistence_witness :
    arrivedStateLit.mode = NavigationMode.ARRIVED ∧
    validGpsFix fixGood = true ∧
    (cdConst (9/2)) fixGood.latitude fixGood.longitude arrivedStateLit.targetLatitude
        arrivedStateLit.targetLongitude ≤ MIN_DISTANCE_METERS ∧
    (update (cdConst (9/2)) (cdConst 30) arrivedStateLit fixGood 0).mode =
      NavigationMode.ARRIVED := by
  refine ⟨by decide, by decide, by norm_num [cdConst, MIN_DISTANCE_METERS], ?_⟩
  exact (arrived_persistence (cdConst (9/2)) (cdConst 30) arrivedStateLit fixGood 0).1
    (by decide) (by decide) (by norm_num [cdConst, MIN_DISTANCE_METERS])

/-! ## C9 — relative angle normalisation -/

/-- C9 counterexample: at heading 180 and bearing 0 — both in `[0, 360)` —
`calculateRelativeAngle` returns exactly -180, which lies outside the claimed
half-open interval `(-180, 180]`. -/
theorem relativeAngle_at_180 :
    calculateRelativeAngle 180 0 = -180 ∧ ¬(-180 < calculateRelativeAngle 180 0) := by
  have h : calculateRelativeAngle 180 0 = -180 := by
    unfold calculateRelativeAngle
    norm_num
  exact ⟨h, by rw [h]; norm_num⟩

/-- C9 (amended): for headings and bearings in `[0, 360)`,
`calculateRelativeAngle` returns the difference `bearing - heading` folded by
at most one ±360 step into the closed interval `[-180, 180]` — the endpoint
-180 is attained (target directly astern), everything else matches the claim;
in particular `calculateRelativeAngle 90 45 = -45` and
`calculateRelativeAngle 10 350 = -20`. -/
theorem relativeAngle_range (h b : ℚ) (hh0 : 0 ≤ h) (hh1 : h < 360)
    (hb0 : 0 ≤ b) (hb1 : b < 360) :
    (-180 ≤ calculateRelativeAngle h b ∧ calculateRelativeAngle h b ≤ 180) ∧
    (calculateRelativeAngle h b = b - h ∨ calculateRelativeAngle h b = b - h - 360 ∨
      calculateRelativeAngle h b = b - h + 360) ∧
    calculateRelativeAngle 90 45 = -45 ∧ calculateRelativeAngle 10 350 = -20 := by
  have e1 : calculateRelativeAngle 90 45 = -45 := by
    unfold calculateRelativeAngle
    norm_num
  have e2 : calculateRelativeAngle 10 350 = -20 := by
    unfold calculateRelativeAngle
    norm_num
  refine ⟨?_, ?_, e1, e2⟩
  · unfold calculateRelativeAngle
    dsimp only
    split_ifs <;> constructor <;> linarith
  · unfold calculateRelativeAngle
    dsimp only
    split_ifs <;> tauto

/-! ## C10 — totality of normalizeAngle -/

theorem navigationMode_eq_navigating (m : NavigationMode)
    (h1 : m ≠ NavigationMode.IDLE) (h2 : m ≠ NavigationMode.ARRIVED) :
    m = NavigationMode.NAVIGATING := by
  cases m <;> simp_all

theorem normalizeAddLoop_nonneg (angle : ℚ) : 0 ≤ normalizeAddLoop angle := by
  induction angle using normalizeAddLoop.induct with
  | case1 a h ih =>
    rw [normalizeAddLoop, dif_pos h]
    exact ih
  | case2 a h =>
    rw [normalizeAddLoop, dif_neg h]
    exact le_of_not_lt h

theorem normalizeSubLoop_nonneg (angle : ℚ) : 0 ≤ angle → 0 ≤ normalizeSubLoop angle := by
  induction angle using normalizeSubLoop.induct with
  | case1 a h ih =>
    intro h0
    rw [normalizeSubLoop, dif_pos h]
    exact ih (by linarith)
  | case2 a h =>
    intro h0
    rw [normalizeSubLoop, dif_neg h]
    exact h0

theorem normalizeSubLoop_lt (angle : ℚ) : normalizeSubLoop angle < 360 := by
  induction angle using normalizeSubLoop.induct with
  | case1 a h ih =>
    rw [normalizeSubLoop, dif_pos h]
    exact ih
  | case2 a h =>
    rw [normalizeSubLoop, dif_neg h]
    exact lt_of_not_le h

set_option maxRecDepth 8000 in
/-- C10 counterexample: under binary32 float semantics the value 1e10 is a
fixed point of `angle -= 360.0f` — one unit in the last place at 1e10 is
1024, so the subtraction rounds back to 1e10 — and the second while-loop of
`normalizeAngle` never terminates: every fuel bound runs out. -/
theorem normalizeAngle_float_diverges_1e10 :
    normalizeAngleF32Diverges 10000000000 := by
  have key : roundToFloat32 ((10000000000 : ℚ) - 360) = 10000000000 := by
    rw [show ((10000000000 : ℚ) - 360) = 9999999640 by norm_num]
    decide
  have hsub : ∀ fuel, subLoopF32 fuel 10000000000 = none := by
    intro fuel
    induction fuel with
    | zero => rfl
    | succ f ih =>
      simp only [subLoopF32]
      rw [if_pos (by norm_num : (360 : ℚ) ≤ 10000000000), key]
      exact ih
  intro fuel
  cases fuel with
  | zero => rfl
  | succ f =>
    have hadd : addLoopF32 (f + 1) 10000000000 = some 10000000000 := by
      simp only [addLoopF32]
      rw [if_neg (by norm_num : ¬((10000000000 : ℚ) < 0))]
    simp only [normalizeAngleF32, hadd, Option.some_bind]
    exact hsub (f + 1)

/-- C10 (amended): under exact arithmetic `normalizeAngle` is total — both
while-loops terminate for every rational input and the result lies in
`[0, 360)`.  Under binary32 float semantics this fails for inputs of large
magnitude such as 1e10, where subtracting 360 rounds back to the input
(see the divergence theorem above). -/
theorem normalizeAngle_exact_total (angle : ℚ) :
    0 ≤ normalizeAngle angle ∧ normalizeAngle angle < 360 := by
  unfold normalizeAngle
  exact ⟨normalizeSubLoop_nonneg _ (normalizeAddLoop_nonneg angle), normalizeSubLoop_lt _⟩

/-! ## C2 — correction gating -/

/-- C2 (the control loop applying `MIN_CORRECTION_INTERVAL` is modelled from
the spec, see `loopTick`): on every reachable state, a tick issues a steering
command only if the post-update mode is `NAVIGATING`, the relative angle
exceeds `HEADING_TOLERANCE` (15°) in magnitude, and at least
`MIN_CORRECTION_INTERVAL` (2000 ms) has elapsed since the last correction —
whose timestamp the firing tick updates to `now`.  Concretely, from a
navigating state with relative angle 30°, two ticks at 3000 ms and 3500 ms
(500 ms apart) transmit exactly once: the first fires `STEER_RIGHT`, the
second is suppressed. -/
theorem steeringCorrection_gating :
    (∀ (cd cb : ℚ → ℚ → ℚ → ℚ → ℚ) (ls : LoopState) (g : GPSData) (heading : ℚ)
        (now : ℕ) (cmd : SteerCommand),
      Reachable ls.nav →
      (loopTick cd cb ls g heading now).2 = some cmd →
      (update cd cb ls.nav g heading).mode = NavigationMode.NAVIGATING ∧
      HEADING_TOLERANCE < |(update cd cb ls.nav g heading).relativeAngle| ∧
      MIN_CORRECTION_INTERVAL ≤ now - ls.lastCorrectionTime ∧
      (loopTick cd cb ls g heading now).1.lastCorrectionTime = now) ∧
    ((loopTick (cdConst 100) (cdConst 30) ⟨trackingStateLit, 0⟩ fixGood 0 3000).2 =
        some SteerCommand.STEER_RIGHT ∧
      (loopTick (cdConst 100) (cdConst 30)
          (loopTick (cdConst 100) (cdConst 30) ⟨trackingStateLit, 0⟩ fixGood 0 3000).1
          fixGood 0 3500).2 = none) := by
  constructor
  · intro cd cb ls g heading now cmd hr hfire
    have hinv := reachable_navInvariant (Reachable.update cd cb g heading hr)
    obtain ⟨hinv1, hinv2⟩ := hinv
    unfold loopTick at hfire
    dsimp only at hfire
    by_cases hc : (shouldCorrectHeading (update cd cb ls.nav g heading) g &&
        decide (MIN_CORRECTION_INTERVAL ≤ now - ls.lastCorrectionTime)) = true
    · have hcparts := hc
      rw [Bool.and_eq_true] at hcparts
      obtain ⟨hsc, hint⟩ := hcparts
      have hintp : MIN_CORRECTION_INTERVAL ≤ now - ls.lastCorrectionTime :=
        of_decide_eq_true hint
      rw [shouldCorrectHeading, Bool.and_eq_true, Bool.and_eq_true] at hsc
      obtain ⟨⟨hcn, htol⟩, hdist⟩ := hsc
      have htolp := of_decide_eq_true htol
      have hdistp := of_decide_eq_true hdist
      rw [canNavigate, Bool.and_eq_true, Bool.and_eq_true] at hcn
      obtain ⟨⟨hvt, _hacc⟩, hen⟩ := hcn
      refine ⟨?_, htolp, hintp, ?_⟩
      · exact navigationMode_eq_navigating _ (hinv2 hen hvt)
          (fun hm => absurd (hinv1 hm) (not_le.mpr hdistp))
      · unfold loopTick
        dsimp only
        rw [if_pos hc]
    · rw [if_neg hc] at hfire
      simp at hfire
  · constructor
    · simp [loopTick, update, validGpsFix, isGpsAccuracyValid, shouldCorrectHeading,
        canNavigate, hasValidTarget, trackingStateLit, fixGood, cdConst,
        calculateRelativeAngle, MIN_DISTANCE_METERS, HEADING_TOLERANCE,
        MIN_CORRECTION_INTERVAL]
      norm_num
    · simp [loopTick, update, validGpsFix, isGpsAccuracyValid, shouldCorrectHeading,
        canNavigate, hasValidTarget, trackingStateLit, fixGood, cdConst,
        calculateRelativeAngle, MIN_DISTANCE_METERS, HEADING_TOLERANCE,
        MIN_CORRECTION_INTERVAL]
      norm_num

/-- C2 witness: the first scenario tick fires, and the gating theorem's
conditions hold for it. -/
theorem steeringCorrection_gating_witness :
    (update (cdConst 100) (cdConst 30) trackingStateLit fixGood 0).mode =
        NavigationMode.NAVIGATING ∧
    HEADING_TOLERANCE <
        |(update (cdConst 100) (cdConst 30) trackingStateLit fixGood 0).relativeAngle| ∧
    MIN_CORRECTION_INTERVAL ≤ 3000 - 0 ∧
    (loopTick (cdConst 100) (cdConst 30) ⟨trackingStateLit, 0⟩ fixGood 0
        3000).1.lastCorrectionTime = 3000 :=
  steeringCorrection_gating.1 (cdConst 100) (cdConst 30) ⟨trackingStateLit, 0⟩ fixGood 0
    3000 SteerCommand.STEER_RIGHT
    (demoTrackingState_eq ▸
      Reachable.update (cdConst 100) (cdConst 30) fixGood 0
        (Reachable.setEnabled true (Reachable.setTarget 1 1 Reachable.init)))
    steeringCorrection_gating.2.1

/-! ## C4 and C8 — the 90-bit frame -/

theorem transmit90BitCommand_replicate (hi lo : ℕ) (n : ℕ) :
    transmit90BitCommand hi lo n =
      (List.replicate n (transmitFrame hi lo ++ [(false, FRAME_GAP_US)])).flatten := by
  induction n with
  | zero => rfl
  | succ m ih => simp [transmit90BitCommand, List.replicate_succ, ih]

set_option maxRecDepth 8000 in
/-- C4: for each of the two commands, one frame's line trace groups into
exactly 91 pulses — the sync pulse followed by the 40 `highBits` and then the
50 `lowBits`, most-significant-bit first, a 1 encoded as the long pulse and a
0 as the short pulse — every pulse width drawn from the six configured
constants; and for every repeat count the full transmission is that same
frame (with its inter-frame gap) repeated verbatim, so the pulse sequence of
a command is identical on every call. -/
theorem frame_pulse_structure :
    toPulses (transmitFrame RIGHT_CODE_HIGH RIGHT_CODE_LOW) =
        some (framePulses RIGHT_CODE_HIGH RIGHT_CODE_LOW) ∧
    (framePulses RIGHT_CODE_HIGH RIGHT_CODE_LOW).length = 91 ∧
    (framePulses RIGHT_CODE_HIGH RIGHT_CODE_LOW).all pulseWidthsConfigured = true ∧
    toPulses (transmitFrame LEFT_CODE_HIGH LEFT_CODE_LOW) =
        some (framePulses LEFT_CODE_HIGH LEFT_CODE_LOW) ∧
    (framePulses LEFT_CODE_HIGH LEFT_CODE_LOW).length = 91 ∧
    (framePulses LEFT_CODE_HIGH LEFT_CODE_LOW).all pulseWidthsConfigured = true ∧
    (∀ n, transmit90BitCommand RIGHT_CODE_HIGH RIGHT_CODE_LOW n =
      (List.replicate n (transmitFrame RIGHT_CODE_HIGH RIGHT_CODE_LOW ++
        [(false, FRAME_GAP_US)])).flatten) ∧
    (∀ n, transmit90BitCommand LEFT_CODE_HIGH LEFT_CODE_LOW n =
      (List.replicate n (transmitFrame LEFT_CODE_HIGH LEFT_CODE_LOW ++
        [(false, FRAME_GAP_US)])).flatten) :=
  ⟨by decide, by decide, by decide, by decide, by decide, by decide,
    transmit90BitCommand_replicate _ _, transmit90BitCommand_replicate _ _⟩

set_option maxRecDepth 8000 in
/-- C8 counterexample: the transmitted 90-bit patterns of RIGHT and LEFT
already differ within their first 80 bits (the code lows differ at bit 14,
which is pattern position 75), so the claimed identical 80-bit prefix does
not hold. -/
theorem steer_codes_differ_within_first80 :
    rightFrameBits.take 80 ≠ leftFrameBits.take 80 := by decide

set_option maxRecDepth 8000 in
/-- C8 (amended): the two commands have identical 40-bit `highBits` and their
90-bit patterns agree on the first 75 bits; the final 15-bit suffix of the
50-bit `lowBits` (highest differing bit: bit 14) is what distinguishes LEFT
from RIGHT. -/
theorem steer_codes_common_prefix75 :
    codeBitsMSB RIGHT_CODE_HIGH 40 = codeBitsMSB LEFT_CODE_HIGH 40 ∧
    rightFrameBits.take 75 = leftFrameBits.take 75 ∧
    rightFrameBits.length = 90 ∧ leftFrameBits.length = 90 ∧
    rightFrameBits.drop 75 ≠ leftFrameBits.drop 75 := by decide

/-! ## C5, C6 and C7 — telemetry validation and fragmentation -/

theorem chunks_flatten (fs : ℕ) (l : List ℕ) (n : ℕ) :
    ((List.range n).map (fun s => (l.drop (s * fs)).take fs)).flatten = l.take (n * fs) := by
  induction n with
  | zero => simp
  | succ m ih =>
    rw [List.range_succ, List.map_append, List.flatten_append, ih]
    simp only [List.map_cons, List.map_nil, List.flatten_cons, List.flatten_nil,
      List.append_nil]
    rw [show (m + 1) * fs = m * fs + fs from by ring, List.take_add]

theorem shift_mask_eq_divMod (len : ℕ) (h : len < 65536) :
    (len >>> 8) &&& 255 = len / 256 := by
  rw [Nat.shiftRight_eq_div_pow]
  have h2 : (255 : ℕ) = 2 ^ 8 - 1 := by norm_num
  rw [h2, Nat.and_pow_two_sub_one_eq_mod]
  norm_num
  omega

theorem mask_eq_mod (len : ℕ) : len &&& 255 = len % 256 := by
  have h2 : (255 : ℕ) = 2 ^ 8 - 1 := by norm_num
  rw [h2, Nat.and_pow_two_sub_one_eq_mod]

/-- C5: a payload longer than the effective MTU, needing at most 255
fragments and shorter than 2^16 bytes, fragments into exactly
`ceil(len / (MTU - 4))` fragments satisfying the framing contract: each
header carries the 0-based sequence number, the fragment count and the
big-endian 16-bit original length, and the fragment payloads concatenate
back to the original payload byte for byte. -/
theorem fragmentation_roundtrip (effectiveMTU : ℕ) (payload : List ℕ)
    (hmtu : 5 ≤ effectiveMTU) (_hlen : effectiveMTU < payload.length)
    (hcount : (payload.length + (effectiveMTU - 4) - 1) / (effectiveMTU - 4) ≤ 255)
    (hlen16 : payload.length < 65536) :
    ∃ frags, sendFragmentedMessage effectiveMTU payload = some frags ∧
      fragmentsSpec effectiveMTU payload frags := by
  have hfs0 : 0 < effectiveMTU - 4 := by omega
  set fs := effectiveMTU - 4 with hfs
  set n := (payload.length + fs - 1) / fs with hn
  have hmod : n % 256 = n := Nat.mod_eq_of_lt (by omega)
  have hle : payload.length ≤ n * fs := by
    have hdm := Nat.div_add_mod (payload.length + fs - 1) fs
    have hmlt : (payload.length + fs - 1) % fs < fs := Nat.mod_lt _ hfs0
    rw [← hn] at hdm
    rw [mul_comm]
    generalize hM : fs * n = M at hdm ⊢
    omega
  have hsend : sendFragmentedMessage effectiveMTU payload =
      some ((List.range n).map fun seq =>
        sendFragment ((payload.drop (seq * fs)).take fs) seq n (payload.length % 65536)) := by
    unfold sendFragmentedMessage
    dsimp only
    rw [← hfs, ← hn, hmod, if_neg (by omega)]
  refine ⟨_, hsend, ?_, ?_, ?_⟩
  · simp only [List.length_map, List.length_range]
  · intro i
    have hi : (i : ℕ) < n := by
      have h := i.isLt
      simpa using h
    simp only [List.get_eq_getElem, List.getElem_map, List.getElem_range,
      List.length_map, List.length_range]
    simp only [show payload.length % 65536 = payload.length from Nat.mod_eq_of_lt hlen16]
    simp only [sendFragment]
    rw [List.take_left' (by rfl), shift_mask_eq_divMod _ hlen16]
    simp only [mask_eq_mod]
  · simp only [List.map_map]
    have hcomp : (List.drop 4 ∘ fun seq =>
        sendFragment ((payload.drop (seq * fs)).take fs) seq n (payload.length % 65536)) =
        fun seq => (payload.drop (seq * fs)).take fs := by
      funext seq
      simp only [Function.comp_apply, sendFragment]
      exact List.drop_left' (by rfl)
    rw [hcomp, chunks_flatten, List.take_of_length_le hle]

/-- C5 witness: a 500-byte payload at effective MTU 185 (fragment size 181,
`ceil(500/181) = 3` fragments). -/
theorem fragmentation_roundtrip_witness :
    5 ≤ 185 ∧ 185 < (List.replicate 500 97 : List ℕ).length ∧
    ((List.replicate 500 97 : List ℕ).length + (185 - 4) - 1) / (185 - 4) ≤ 255 ∧
    (List.replicate 500 97 : List ℕ).length < 65536 ∧
    ((List.replicate 500 97 : List ℕ).length + (185 - 4) - 1) / (185 - 4) = 3 ∧
    ∃ frags, sendFragmentedMessage 185 (List.replicate 500 97) = some frags ∧
      fragmentsSpec 185 (List.replicate 500 97) frags :=
  ⟨by norm_num,
    by rw [List.length_replicate]; norm_num,
    by rw [List.length_replicate]; norm_num,
    by rw [List.length_replicate]; norm_num,
    by rw [List.length_replicate],
    fragmentation_roundtrip 185 (List.replicate 500 97) (by norm_num)
      (by rw [List.length_replicate]; norm_num) (by rw [List.length_replicate]; norm_num)
      (by rw [List.length_replicate]; norm_num)⟩

theorem containsSub_eq_false (n0 : ℕ) (ns : List ℕ) (hay : List ℕ)
    (h : ∀ b ∈ hay, b ≠ n0) : containsSub (n0 :: ns) hay = false := by
  induction hay with
  | nil => rfl
  | cons b rest ih =>
    rw [containsSub]
    have h1 : (n0 :: ns).isPrefixOf (b :: rest) = false := by
      simp only [List.isPrefixOf]
      have : (n0 == b) = false := by
        have hb := h b (List.mem_cons_self b rest)
        simp [Ne.symm hb]
      rw [this, Bool.false_and]
    rw [h1, ih (fun x hx => h x (List.mem_cons_of_mem _ hx))]
    rfl

theorem braceStep_letter (st : ℤ × Bool × Bool) : braceStep (st.1, st.2.1, false) 97 =
    (st.1, st.2.1, false) := by
  rcases st with ⟨c, i, e⟩
  cases i <;> rfl

theorem foldl_braceStep_replicate_letter (k : ℕ) (c : ℤ) (i : Bool) :
    List.foldl braceStep (c, i, false) (List.replicate k 97) = (c, i, false) := by
  induction k with
  | zero => rfl
  | succ m ih =>
    rw [List.replicate_succ, List.foldl_cons]
    have h := braceStep_letter (c, i, false)
    simp only at h
    rw [h, ih]

theorem oversizedJson_valid : isValidCompleteJSON oversizedJson = true := by
  have hmem : ∀ b ∈ (List.replicate 4110 97 ++ [125] : List ℕ), b = 97 ∨ b = 125 := by
    intro b hb
    rcases List.mem_append.mp hb with h | h
    · exact Or.inl (List.eq_of_mem_replicate h)
    · rw [List.mem_singleton] at h
      exact Or.inr h
  have hmem' : ∀ b ∈ oversizedJson, b = 123 ∨ b = 97 ∨ b = 125 := by
    intro b hb
    rcases List.mem_cons.mp hb with h | h
    · exact Or.inl h
    · exact Or.inr (hmem b h)
  have h2 : oversizedJson.getLast? = some 125 := by
    rw [show oversizedJson = (123 :: List.replicate 4110 97) ++ [125] from by
      rw [oversizedJson, List.cons_append], List.getLast?_concat]
  have h3 : containsSub falseDotBytes oversizedJson = false := by
    apply containsSub_eq_false
    intro b hb
    rcases hmem' b hb with h | h | h <;> omega
  have h4 : containsSub trueDotBytes oversizedJson = false := by
    apply containsSub_eq_false
    intro b hb
    rcases hmem' b hb with h | h | h <;> omega
  have h5 : containsSub nullDotBytes oversizedJson = false := by
    apply containsSub_eq_false
    intro b hb
    rcases hmem' b hb with h | h | h <;> omega
  have h6 : braceBalanced oversizedJson = true := by
    unfold braceBalanced oversizedJson
    rw [List.foldl_cons, show braceStep (0, false, false) 123 = (1, false, false) from rfl,
      List.foldl_append, foldl_braceStep_replicate_letter]
    rfl
  simp only [isValidCompleteJSON, oversizedJson, List.isEmpty_cons, Bool.not_false,
    Bool.true_and, List.head?_cons]
  rw [show (123 :: (List.replicate 4110 97 ++ [125]) : List ℕ) = oversizedJson from rfl,
    h2, h3, h4, h5, h6]
  decide

/-- C6 (code bug): `totalFragments` is a `uint8_t`, so the fragment count
truncates modulo 256 before the `> 255` guard — which therefore can never
fire.  The valid 4112-byte payload below needs `ceil(4112/16) = 257`
fragments at the default effective MTU of 20; the code truncates 257 to 1,
transmits one fragment whose header wrongly announces 1 total fragment, and
reports success, so the fallback is never sent — the spec requires
fragmentation to abort with no fragment transmitted and the fallback sent
instead. -/
theorem fragmentCount_truncation_bug :
    (oversizedJson.length + (20 - 4) - 1) / (20 - 4) = 257 ∧
    isValidCompleteJSON oversizedJson = true ∧
    sendStatus 20 oversizedJson =
      Transmission.fragments [[0, 1, 16, 16] ++ (123 :: List.replicate 15 97)] := by
  have hlen : oversizedJson.length = 4112 := by
    simp only [oversizedJson, List.length_cons, List.length_append, List.length_replicate,
      List.length_nil]
  have htake : oversizedJson.take (20 - 4) = 123 :: List.replicate 15 97 := by
    rw [show oversizedJson = 123 :: (List.replicate 4110 97 ++ [125]) from rfl,
      show (20 - 4 : ℕ) = 15 + 1 from rfl, List.take_succ_cons,
      List.take_append_of_le_length (by rw [List.length_replicate]; norm_num),
      List.take_replicate]
    norm_num
  have hfrag : sendFragmentedMessage 20 oversizedJson =
      some [[0, 1, 16, 16] ++ (123 :: List.replicate 15 97)] := by
    unfold sendFragmentedMessage
    dsimp only
    rw [hlen, show (4112 + (20 - 4) - 1) / (20 - 4) % 256 = 1 from by norm_num,
      if_neg (by norm_num : ¬(255 < 1)), show List.range 1 = [0] from rfl]
    simp only [List.map_cons, List.map_nil, Nat.zero_mul, List.drop_zero]
    rw [htake]
    rfl
  refine ⟨by rw [hlen], oversizedJson_valid, ?_⟩
  unfold sendStatus
  rw [oversizedJson_valid, hlen]
  rw [show (!true) = false from rfl, if_neg (by simp), if_neg (by norm_num : ¬(4112 ≤ 20)),
    hfrag]

set_option maxRecDepth 8000 in
/-- C7: `sendStatus` transmits the caller's payload — whole or fragmented —
only when `isValidCompleteJSON` accepts it; validity is exactly the claimed
check list (leading and trailing brace, no `false.`/`true.`/`null.`
corruption marker, string- and escape-aware brace balance); any payload
failing a check is replaced by the essential-status fallback, which itself
passes validation. -/
theorem sendStatus_validation (effectiveMTU : ℕ) (p : List ℕ) :
    (isValidCompleteJSON p = false →
      sendStatus effectiveMTU p = Transmission.fallback essentialStatusJSON) ∧
    (sendStatus effectiveMTU p ≠ Transmission.fallback essentialStatusJSON →
      isValidCompleteJSON p = true) ∧
    (isValidCompleteJSON p = true ↔
      (p.head? = some lbraceByte ∧ p.getLast? = some rbraceByte ∧
        containsSub falseDotBytes p = false ∧ containsSub trueDotBytes p = false ∧
        containsSub nullDotBytes p = false ∧ braceBalanced p = true)) ∧
    isValidCompleteJSON essentialStatusJSON = true := by
  refine ⟨?_, ?_, ?_, by decide⟩
  · intro h
    simp [sendStatus, h]
  · intro h
    cases hb : isValidCompleteJSON p with
    | false => exact absurd (by simp [sendStatus, hb]) h
    | true => rfl
  · constructor
    · intro h
      simp only [isValidCompleteJSON, Bool.and_eq_true, Bool.not_eq_true',
        beq_iff_eq] at h
      exact ⟨h.1.1.1.1.1.2, h.1.1.1.1.2, h.1.1.1.2, h.1.1.2, h.1.2, h.2⟩
    · rintro ⟨h1, h2, h3, h4, h5, h6⟩
      have hne : p.isEmpty = false := by
        cases p with
        | nil => simp at h1
        | cons a l => rfl
      simp [isValidCompleteJSON, hne, h1, h2, h3, h4, h5, h6]

/-- C7 witness: the one-byte payload `h` fails validation and is replaced by
the fallback. -/
theorem sendStatus_validation_witness :
    isValidCompleteJSON [104] = false ∧
    sendStatus 20 [104] = Transmission.fallback essentialStatusJSON :=
  ⟨by decide, (sendStatus_validation 20 [104]).1 (by decide)⟩

/-- C9 witness at heading 90, bearing 45. -/
theorem relativeAngle_range_witness :
    ((0:ℚ) ≤ 90 ∧ (90:ℚ) < 360 ∧ (0:ℚ) ≤ 45 ∧ (45:ℚ) < 360) ∧
    ((-180 ≤ calculateRelativeAngle 90 45 ∧ calculateRelativeAngle 90 45 ≤ 180) ∧
      (calculateRelativeAngle 90 45 = 45 - 90 ∨
        calculateRelativeAngle 90 45 = 45 - 90 - 360 ∨
        calculateRelativeAngle 90 45 = 45 - 90 + 360) ∧
      calculateRelativeAngle 90 45 = -45 ∧ calculateRelativeAngle 10 350 = -20) :=
  ⟨⟨by norm_num, by norm_num, by norm_num, by norm_num⟩,
    relativeAngle_range 90 45 (by norm_num) (by norm_num) (by norm_num) (by norm_num)⟩

end AutoHelm
